import Mathlib

/-!
Shallow embedding of `src/compare/core/algorithm.py`.

Conventions used throughout:

* Python/NumPy floating-point values are modelled as exact rationals,
  extended with the IEEE special values that the code can actually
  produce: `PyFloat.nan`, `PyFloat.inf`, `PyFloat.ninf`.  Rounding is
  not modelled; every claim settled here is about values (0.0, 1.0,
  NaN, raised exceptions, ordering) that floating point represents
  exactly.
* Python exceptions are modelled with `Except PyErr`: sklearn's
  empty-vocabulary `ValueError`, the `ZeroDivisionError` from
  `lev_distance / max(len, len)`, and the `IndexError` from
  `similarities[0]` on an empty list.
* External capabilities that the spec declares opaque (the spaCy
  token embedder behind `embed_text`, `np.linalg.svd`'s first right
  singular vector, the float square root used inside norms, and the
  fitted TF-IDF transform) are passed in as function parameters, so
  every theorem is quantified over them unless a concrete
  instantiation is needed.
* `SIMILARITY_THRESHOLD` and `ResultScore` are imported by the code
  from `compare.model`, which is not part of the sources; following
  the spec they are modelled as an arbitrary fixed rational constant
  and a record `{closest, score, similar}`.
-/

namespace CompareAlg

/- Batteries seals the rational field operations `@[irreducible]`; the
concrete evaluations below need them to reduce definitionally. -/
attribute [local semireducible] Rat.mul Rat.inv Rat.add Rat.sub

/-- Python strings are modelled as lists of characters. -/
abbrev Str := List Char

/-- Dense numeric vectors (rows of `toarray()`); floats as exact rationals. -/
abbrev Vec := List ℚ

/-- Float values the pipeline can produce: an exact rational or one of the
IEEE special values NaN, +inf, -inf. -/
inductive PyFloat where
  | nan : PyFloat
  | inf : PyFloat
  | ninf : PyFloat
  | num : ℚ → PyFloat
deriving DecidableEq

/-- Python exceptions reachable in `algorithm.py`. -/
inductive PyErr where
  | valueError : PyErr
  | zeroDivisionError : PyErr
  | indexError : PyErr
deriving DecidableEq

/-- Multiplication of a float constant with a float value (`0.7 * x`,
`0.3 * x`); NaN propagates, and `c * ±inf` follows the sign of `c`
(with `0 * ±inf = NaN`). -/
def pfScale (c : ℚ) : PyFloat → PyFloat
  | .nan => .nan
  | .inf => if 0 < c then .inf else if c < 0 then .ninf else .nan
  | .ninf => if 0 < c then .ninf else if c < 0 then .inf else .nan
  | .num q => .num (c * q)

/-- Float addition; NaN propagates and `inf + (-inf) = NaN`. -/
def pfAdd : PyFloat → PyFloat → PyFloat
  | .nan, _ => .nan
  | _, .nan => .nan
  | .inf, .ninf => .nan
  | .inf, _ => .inf
  | .ninf, .inf => .nan
  | .ninf, _ => .ninf
  | .num _, .inf => .inf
  | .num _, .ninf => .ninf
  | .num a, .num b => .num (a + b)

/-- Subtraction of a float value from a constant (`1.0 - x`). -/
def pfRsub (c : ℚ) : PyFloat → PyFloat
  | .nan => .nan
  | .inf => .ninf
  | .ninf => .inf
  | .num q => .num (c - q)

/-- `np.clip(x, lo, hi)`; NaN is propagated unchanged, infinities clip to
the corresponding bound. -/
def npClip (lo hi : ℚ) : PyFloat → PyFloat
  | .nan => .nan
  | .inf => .num hi
  | .ninf => .num lo
  | .num q => .num (max lo (min hi q))

/-- NumPy float division `a / b` for exact operands: `0/0` is NaN and
`a/0` with `a ≠ 0` is a signed infinity (the divisor that occurs in the
code is a norm, hence `+0.0` when zero). -/
def npDivQ (a b : ℚ) : PyFloat :=
  if b = 0 then (if a = 0 then .nan else if 0 < a then .inf else .ninf)
  else .num (a / b)

/-- Key order used to model `list.sort(key=..., reverse=True)`.  On
non-NaN floats it is exactly the Python `<=` order (with `-inf` below all
rationals below `+inf`).  Python's comparisons on NaN all return `False`,
which makes its sort implementation-defined in that case; the model makes
the order total by placing NaN below everything, and the ordering theorems
carry a NaN-freeness hypothesis where faithfulness requires it. -/
def pfLeB : PyFloat → PyFloat → Bool
  | .nan, _ => true
  | _, .nan => false
  | .ninf, _ => true
  | _, .ninf => false
  | _, .inf => true
  | .inf, _ => false
  | .num a, .num b => a ≤ b

/-- Python `sim_score >= SIMILARITY_THRESHOLD` where the threshold is a
plain (non-NaN) float: any comparison with NaN is `False`. -/
def pfGe (x : PyFloat) (t : ℚ) : Bool :=
  match x with
  | .nan => false
  | .inf => true
  | .ninf => false
  | .num q => t ≤ q

/-- Dot product of two dense vectors (`np.dot`), zipping coordinates. -/
def dot : Vec → Vec → ℚ
  | a :: as, b :: bs => a * b + dot as bs
  | _, _ => 0

/-- Helper realising the inner recursion of the classic Levenshtein
recurrence: given `levS = levenshtein s`, `levAux levS a s.length`
computes `t ↦ levenshtein (a :: s) t` by structural recursion on `t`. -/
def levAux (levS : List Char → Nat) (a : Char) (slen : Nat) : List Char → Nat
  | [] => slen + 1
  | b :: t => if a = b then levS t
      else 1 + min (levS t) (min (levAux levS a slen t) (levS (b :: t)))

/-- Classic unit-cost Levenshtein edit distance (the external
`Levenshtein.distance`), written with a structural helper so that it
reduces in the kernel. -/
def levenshtein : List Char → List Char → Nat
  | [], t => t.length
  | a :: s, t => levAux (levenshtein s) a s.length t

/-- The edit-similarity computation of line 83-84:
`1 - levenshtein_distance(input_text, text) / max(len(input_text), len(text))`.
Both lengths zero make the Python integer division raise
`ZeroDivisionError`; there is no special case in the code. -/
def levSimilarity (input_text text : Str) : Except PyErr PyFloat :=
  let lev_distance := levenshtein input_text text
  let maxlen := max input_text.length text.length
  if maxlen = 0 then .error .zeroDivisionError
  else .ok (.num (1 - (lev_distance : ℚ) / (maxlen : ℚ)))

/-- The function `advanced_similarity(text1, text2)`.  The opaque external
capabilities are passed in: `embed` is `embed_text` (the rows of the
token-embedding matrix: one vector per token that has a spaCy embedding),
`svdTop` is the first right singular vector `v[0]` produced by
`np.linalg.svd`, and `sqrt` is the float square root inside
`np.linalg.norm v = sqrt (dot v v)`.  When either matrix has zero rows
(`vec.size == 0`) the code returns `0.0`; otherwise it returns
`np.dot(v1[0], v2[0]) / (norm(v1[0]) * norm(v2[0]))`. -/
def advanced_similarity (embed : Str → List Vec) (svdTop : List Vec → Vec)
    (sqrt : ℚ → ℚ) (text1 text2 : Str) : PyFloat :=
  let vec1 := embed text1
  let vec2 := embed text2
  if vec1.isEmpty || vec2.isEmpty then .num 0
  else
    let v1 := svdTop vec1
    let v2 := svdTop vec2
    npDivQ (dot v1 v2) (sqrt (dot v1 v1) * sqrt (dot v2 v2))

/-- Python `\s` whitespace characters (the ASCII ones). -/
def isPySpace (c : Char) : Bool :=
  c = ' ' || c = '\t' || c = '\n' || c = '\r' || c = '\x0b' || c = '\x0c'

/-- Worker for sklearn's `re.sub(r"\s\s+", " ", text)`: each maximal run
of two or more whitespace characters is replaced by a single space, while
an isolated whitespace character is kept as-is.  `inRun = true` means the
current run of whitespace has already been emitted as one space. -/
def wsGo : Bool → List Char → List Char
  | _, [] => []
  | inRun, c :: rest =>
    if isPySpace c then
      if inRun then wsGo true rest
      else
        match rest with
        | [] => [c]
        | d :: _ => if isPySpace d then ' ' :: wsGo true rest
                    else c :: wsGo false rest
    else c :: wsGo false rest

/-- The document as seen by the character analyzer of
`TfidfVectorizer(analyzer='char', ngram_range=(3, 5))`: the default
preprocessor lowercases the text, then `_char_ngrams` collapses
whitespace runs. -/
def analyzerInput (doc : Str) : Str := wsGo false (doc.map Char.toLower)

/-- All contiguous substrings of length `n` of `d`
(`for i in range(text_len - n + 1)`); empty when `n > d.length`. -/
def ngramsOfLen (d : Str) (n : Nat) : List Str :=
  (List.range (d.length + 1 - n)).map fun i => (d.drop i).take n

/-- The character n-grams of one document for `ngram_range=(3, 5)`.  The
Python loop runs `n` from 3 to `min(5, text_len)`; for `n > text_len` the
inner range is empty, so unconditionally appending the three lists is
equivalent. -/
def charNgrams (doc : Str) : List Str :=
  let d := analyzerInput doc
  ngramsOfLen d 3 ++ ngramsOfLen d 4 ++ ngramsOfLen d 5

/-- Vocabulary check of sklearn's `fit_transform`: fitting raises
`ValueError("empty vocabulary")` exactly when no document contributes any
n-gram (in particular for an empty corpus).  The numeric TF-IDF weights
themselves are an opaque capability per the spec and are not needed for
the vocabulary-emptiness behaviour. -/
def tfidfFit (corpus : List Str) : Except PyErr Unit :=
  if corpus.all fun t => (charNgrams t).isEmpty then .error .valueError
  else .ok ()

/-- State of a constructed `TextComparer`: the stored candidate list and
the fitted vectorizer, modelled as the function `transform` it exposes. -/
structure TextComparer where
  texts : List Str
  transform : Str → Vec

/-- `self.embeddings`, produced by `fit_transform(self.texts).toarray()`;
for `TfidfVectorizer` this equals transforming each text in order. -/
def TextComparer.embeddings (c : TextComparer) : List Vec :=
  c.texts.map c.transform

/-- `TextComparer.__init__`: `fit_transform` fails on an empty vocabulary,
otherwise the comparer holds the texts and the fitted transform.
`fitTransform` is the opaque TF-IDF capability producing the fitted
vector space of a corpus. -/
def TextComparer.init (fitTransform : List Str → Str → Vec)
    (texts : List Str) : Except PyErr TextComparer :=
  match tfidfFit texts with
  | .error e => .error e
  | .ok _ => .ok { texts := texts, transform := fitTransform texts }

/-- Result record returned by `compare_texts` (the `ResultScore` model
imported from `compare.model`, per the spec a record
`{closest, score, similar}`). -/
structure ResultScore where
  closest : Str
  score : PyFloat
  similar : List Str
deriving DecidableEq

/-- The lexical similarity of line 76:
`1 - scipy.spatial.distance.cosine(u, v)`, where scipy's cosine distance
is `clip(1 - dot(u, v) / sqrt(dot(u, u) * dot(v, v)), 0, 2)`.  For a
zero-norm operand the quotient is `0/0`, i.e. NaN, which survives the
clip and the final subtraction. -/
def tfidfCosineSim (sqrt : ℚ → ℚ) (u v : Vec) : PyFloat :=
  pfRsub 1 (npClip 0 2 (pfRsub 1 (npDivQ (dot u v) (sqrt (dot u u * dot v v)))))

/-- The method `_combined_similarity`: the semantic component is
`advanced_similarity` in advanced mode and the lexical TF-IDF cosine
similarity otherwise; the edit component may raise `ZeroDivisionError`;
the blend is `0.7 * embedding_sim + 0.3 * lev_similarity`. -/
def combined_similarity (sqrt : ℚ → ℚ) (embed : Str → List Vec)
    (svdTop : List Vec → Vec) (input_text text : Str)
    (input_embedding text_embedding : Vec) (advanced : Bool) :
    Except PyErr PyFloat :=
  let tfidf_cosine_sim := tfidfCosineSim sqrt input_embedding text_embedding
  let embedding_sim :=
    if advanced then advanced_similarity embed svdTop sqrt input_text text
    else tfidf_cosine_sim
  match levSimilarity input_text text with
  | .error e => .error e
  | .ok lev_similarity =>
      .ok (pfAdd (pfScale (7/10) embedding_sim) (pfScale (3/10) lev_similarity))

/-- The scores of the list comprehension in `compare_texts`, one
`(text, combined_similarity ...)` pair per `(text, text_embedding)` of
`zip(self.texts, self.embeddings)`, in corpus order; the first exception
aborts the whole comparison. -/
def scoreList (sqrt : ℚ → ℚ) (embed : Str → List Vec)
    (svdTop : List Vec → Vec) (input_text : Str) (input_embedding : Vec)
    (advanced : Bool) : List (Str × Vec) → Except PyErr (List (Str × PyFloat))
  | [] => .ok []
  | (text, text_embedding) :: rest =>
    match combined_similarity sqrt embed svdTop input_text text
        input_embedding text_embedding advanced with
    | .error e => .error e
    | .ok s =>
      match scoreList sqrt embed svdTop input_text input_embedding advanced rest with
      | .error e => .error e
      | .ok l => .ok ((text, s) :: l)

/-- The `similarities` list of `compare_texts` before sorting. -/
def similarityList (sqrt : ℚ → ℚ) (embed : Str → List Vec)
    (svdTop : List Vec → Vec) (c : TextComparer) (input_text : Str)
    (advanced : Bool) : Except PyErr (List (Str × PyFloat)) :=
  scoreList sqrt embed svdTop input_text (c.transform input_text) advanced
    (c.texts.zip c.embeddings)

/-- Sort order of `similarities.sort(key=lambda x: x[1], reverse=True)`:
descending on the score component. -/
def scoreDesc (a b : Str × PyFloat) : Prop := pfLeB b.2 a.2 = true

instance : DecidableRel scoreDesc := fun a b =>
  inferInstanceAs (Decidable (pfLeB b.2 a.2 = true))

instance : IsTotal (Str × PyFloat) scoreDesc :=
  ⟨fun a b => by
    rcases a with ⟨s, x⟩
    rcases b with ⟨t, y⟩
    unfold scoreDesc
    cases x <;> cases y <;> simp [pfLeB] <;> exact le_total _ _⟩

instance : IsTrans (Str × PyFloat) scoreDesc :=
  ⟨fun a b c h1 h2 => by
    rcases a with ⟨s, x⟩
    rcases b with ⟨t, y⟩
    rcases c with ⟨u, z⟩
    unfold scoreDesc at *
    cases x <;> cases y <;> cases z <;> simp_all [pfLeB] <;>
      exact le_trans h2 h1⟩

/-- Python's `list.sort(key, reverse=True)` is a stable descending sort
(CPython reverses, sorts ascending stably, reverses back, so equal keys
keep their original relative order).  Any two stable sorts agree on a
total key order, so insertion sort is a faithful model; for NaN keys
Python's comparisons are not a total order and its output is
implementation-defined, which is why the ordering theorems assume
NaN-free scores. -/
def rankCandidates (l : List (Str × PyFloat)) : List (Str × PyFloat) :=
  List.insertionSort scoreDesc l

/-- The method `compare_texts`: score every candidate, sort descending,
take `similarities[0]` as `(closest, score)` (an `IndexError` on an empty
corpus), and keep the tail entries whose score is `>= SIMILARITY_THRESHOLD`.
`threshold` stands for the constant `SIMILARITY_THRESHOLD` imported from
`compare.model` (not part of the sources; per the spec a fixed design
constant).  The method assigns no attribute of `self`, so the comparer
seen by later calls is returned unchanged alongside the result. -/
def compare_texts (sqrt : ℚ → ℚ) (embed : Str → List Vec)
    (svdTop : List Vec → Vec) (threshold : ℚ) (c : TextComparer)
    (input_text : Str) (advanced : Bool) :
    Except PyErr (ResultScore × TextComparer) :=
  match similarityList sqrt embed svdTop c input_text advanced with
  | .error e => .error e
  | .ok sims =>
    match rankCandidates sims with
    | [] => .error .indexError
    | (closest, score) :: rest =>
      .ok ({ closest := closest, score := score,
             similar := (rest.filter fun p => pfGe p.2 threshold).map Prod.fst },
           c)

/-! Concrete instantiations of the opaque capabilities, used to evaluate
the pipeline at specific inputs.  The transforms spell out the actual
TF-IDF vectors of the tiny corpora they model. -/

/-- Square-root capability for the concrete runs.  The only arguments it
is applied to are the norm products of the unit and zero vectors `[0]`,
`[1]`, `[1, 0]`, `[0, 1]`, namely 0 and 1, where the float square root is
exact; the table maps everything else to 0 (never reached). -/
def sqrt01 (q : ℚ) : ℚ := if q = 1 then 1 else 0

/-- Embedder for which no token of any text has an embedding vector
(every token-embedding matrix has zero rows). -/
def embedNone : Str → List Vec := fun _ => []

/-- Placeholder singular-vector capability for runs that never reach the
SVD (lexical mode or the empty-embedding fallback). -/
def svdStub : List Vec → Vec := fun _ => []

/-- Fitted TF-IDF transform of the corpus `["abc"]`: the vocabulary is
the single 3-gram `abc`, so the corpus document maps to the l2-normalised
vector `[1.0]` and any text containing no vocabulary n-gram (for example
`"xy"` or `""`) maps to the zero vector `[0.0]`. -/
def transformABC : Str → Vec := fun t => if t = "abc".toList then [1] else [0]

/-- A `TextComparer` constructed from the corpus `["abc"]`. -/
def comparerABC : TextComparer :=
  { texts := ["abc".toList], transform := transformABC }

/-- A `TextComparer` constructed from the corpus `["abc", ""]`: the empty
string contributes no n-gram and maps to the zero vector. -/
def comparerABCEmpty : TextComparer :=
  { texts := ["abc".toList, "".toList], transform := transformABC }

/-- Fitted TF-IDF transform of the corpus `["abc", "abd"]`: each document
is the only one containing its own 3-gram, so after idf weighting and l2
normalisation the two documents map to the orthogonal unit vectors
`[1, 0]` and `[0, 1]` (shared-feature weights omitted as they cancel in
this stub's role: exercising ranking and filtering on distinct scores). -/
def transformAB2 : Str → Vec := fun t =>
  if t = "abc".toList then [1, 0]
  else if t = "abd".toList then [0, 1]
  else [0, 0]

/-- A `TextComparer` constructed from the corpus `["abc", "abd"]`. -/
def comparerAB2 : TextComparer :=
  { texts := ["abc".toList, "abd".toList], transform := transformAB2 }

/-- The score list `comparerAB2` computes for the input `"abc"` in
lexical mode: the matching candidate scores `0.7 * 1 + 0.3 * 1 = 1`, the
other one `0.7 * 0 + 0.3 * (1 - 1/3) = 1/5`. -/
def scoresAB2 : List (Str × PyFloat) :=
  [("abc".toList, PyFloat.num 1), ("abd".toList, PyFloat.num (1/5))]

/-- The result `comparerAB2` returns for the input `"abc"` with
threshold `1/10`. -/
def resultAB2 : ResultScore :=
  { closest := "abc".toList, score := PyFloat.num 1,
    similar := ["abd".toList] }

/-- The score list `comparerAB2` computes for the input `"abd"` in
lexical mode: mirror image of `scoresAB2`, so the ranking has to move the
second candidate in front of the first. -/
def scoresAB2R : List (Str × PyFloat) :=
  [("abc".toList, PyFloat.num (1/5)), ("abd".toList, PyFloat.num 1)]

/-! Helper lemmas. -/

/-- The recurrence satisfied by `levenshtein` on two non-empty strings,
showing the definition is the classic insert/delete/substitute distance. -/
theorem levenshtein_cons_cons (a b : Char) (s t : List Char) :
    levenshtein (a :: s) (b :: t) =
      if a = b then levenshtein s t
      else 1 + min (levenshtein s t)
        (min (levenshtein (a :: s) t) (levenshtein s (b :: t))) := rfl

theorem levenshtein_self : ∀ s : List Char, levenshtein s s = 0
  | [] => rfl
  | a :: s => by
      have ih := levenshtein_self s
      simp [levenshtein_cons_cons, ih]

theorem dot_comm (u v : Vec) : dot u v = dot v u := by
  induction u generalizing v with
  | nil => cases v <;> rfl
  | cons a as ih =>
    cases v with
    | nil => rfl
    | cons b bs => simp [dot, ih, mul_comm]

/-- A document contributes an n-gram exactly when its analyzer form has
at least 3 characters. -/
theorem charNgrams_isEmpty_iff (t : Str) :
    (charNgrams t).isEmpty = true ↔ (analyzerInput t).length < 3 := by
  unfold charNgrams ngramsOfLen
  simp only [List.isEmpty_iff, List.append_eq_nil, List.map_eq_nil_iff,
    List.range_eq_nil]
  omega

/-- Inserting an element whose score is the key `q` in front of every
strictly smaller-scored element preserves the `score = q` fibre: the
skipped elements all have strictly larger scores. -/
theorem filter_orderedInsert_eq (q : ℚ) (x : Str × PyFloat)
    (hx : x.2 = PyFloat.num q) :
    ∀ l : List (Str × PyFloat),
      (List.orderedInsert scoreDesc x l).filter
          (fun y => decide (y.2 = PyFloat.num q)) =
        x :: l.filter (fun y => decide (y.2 = PyFloat.num q)) := by
  intro l
  induction l with
  | nil => simp [List.orderedInsert, hx]
  | cons b l ih =>
    by_cases hb : scoreDesc x b
    · simp [List.orderedInsert, hb, List.filter_cons, hx]
    · have hbne : ¬ b.2 = PyFloat.num q := by
        intro hbq
        apply hb
        unfold scoreDesc
        rw [hbq, hx]
        simp [pfLeB]
      rw [show List.orderedInsert scoreDesc x (b :: l) =
            b :: List.orderedInsert scoreDesc x l by
          simp [List.orderedInsert, hb]]
      simp [List.filter_cons, hbne, ih]

theorem filter_orderedInsert_ne (q : ℚ) (x : Str × PyFloat)
    (hx : ¬ x.2 = PyFloat.num q) :
    ∀ l : List (Str × PyFloat),
      (List.orderedInsert scoreDesc x l).filter
          (fun y => decide (y.2 = PyFloat.num q)) =
        l.filter (fun y => decide (y.2 = PyFloat.num q)) := by
  intro l
  induction l with
  | nil => simp [List.orderedInsert, hx]
  | cons b l ih =>
    by_cases hb : scoreDesc x b
    · simp [List.orderedInsert, hb, List.filter_cons, hx]
    · rw [show List.orderedInsert scoreDesc x (b :: l) =
            b :: List.orderedInsert scoreDesc x l by
          simp [List.orderedInsert, hb]]
      simp [List.filter_cons, ih]

/-- Stability of the modelled sort, expressed per score fibre: the
elements carrying any fixed score appear in the sorted list exactly in
their original order. -/
theorem filter_insertionSort_key (q : ℚ) :
    ∀ L : List (Str × PyFloat),
      (List.insertionSort scoreDesc L).filter
          (fun y => decide (y.2 = PyFloat.num q)) =
        L.filter (fun y => decide (y.2 = PyFloat.num q)) := by
  intro L
  induction L with
  | nil => rfl
  | cons x L ih =>
    show (List.orderedInsert scoreDesc x (List.insertionSort scoreDesc L)).filter _ = _
    by_cases hx : x.2 = PyFloat.num q
    · rw [filter_orderedInsert_eq q x hx, ih]
      simp [List.filter_cons, hx]
    · rw [filter_orderedInsert_ne q x hx, ih]
      simp [List.filter_cons, hx]

/-- The per-candidate shape of each successfully computed score: the edit
similarity succeeded and the stored pair is the text with the
`0.7 / 0.3` blend of the mode-dependent semantic component and the edit
similarity. -/
def scoreShape (sqrt : ℚ → ℚ) (embed : Str → List Vec)
    (svdTop : List Vec → Vec) (input_text : Str) (input_embedding : Vec)
    (advanced : Bool) (tf : Str → Vec) (t : Str) (p : Str × PyFloat) : Prop :=
  ∃ ed, levSimilarity input_text t = .ok ed ∧
    p = (t, pfAdd
      (pfScale (7/10)
        (if advanced then advanced_similarity embed svdTop sqrt input_text t
         else tfidfCosineSim sqrt input_embedding (tf t)))
      (pfScale (3/10) ed))

/-- Inversion of a successful scoring pass over `zip(texts, map tf texts)`:
every stored pair has the blended-score shape. -/
theorem scoreList_zip_ok (sqrt : ℚ → ℚ) (embed : Str → List Vec)
    (svdTop : List Vec → Vec) (input_text : Str) (input_embedding : Vec)
    (advanced : Bool) (tf : Str → Vec) :
    ∀ (ts : List Str) (L : List (Str × PyFloat)),
      scoreList sqrt embed svdTop input_text input_embedding advanced
        (ts.zip (ts.map tf)) = .ok L →
      List.Forall₂
        (scoreShape sqrt embed svdTop input_text input_embedding advanced tf)
        ts L := by
  intro ts
  induction ts with
  | nil =>
    intro L h
    injection h with h
    rw [← h]
    exact List.Forall₂.nil
  | cons t ts ih =>
    intro L h
    have hz : ((t :: ts).zip ((t :: ts).map tf)) =
        (t, tf t) :: ts.zip (ts.map tf) := rfl
    rw [hz] at h
    unfold scoreList at h
    cases hcs : combined_similarity sqrt embed svdTop input_text t
        input_embedding (tf t) advanced with
    | error e => rw [hcs] at h; exact (Except.noConfusion h)
    | ok s =>
      rw [hcs] at h
      cases hrest : scoreList sqrt embed svdTop input_text input_embedding
          advanced (ts.zip (ts.map tf)) with
      | error e => rw [hrest] at h; exact (Except.noConfusion h)
      | ok l =>
        rw [hrest] at h
        injection h with h
        rw [← h]
        refine List.Forall₂.cons ?_ (ih l hrest)
        simp only [combined_similarity] at hcs
        cases hlev : levSimilarity input_text t with
        | error e => rw [hlev] at hcs; exact (Except.noConfusion hcs)
        | ok ed =>
          rw [hlev] at hcs
          injection hcs with hcs
          exact ⟨ed, hlev, by rw [← hcs]⟩

/-- In a `Forall₂` of score shapes, every stored pair carries its own
candidate text, so the score list lists the candidates in corpus order. -/
theorem map_fst_of_scoreShape {sqrt : ℚ → ℚ} {embed : Str → List Vec}
    {svdTop : List Vec → Vec} {input_text : Str} {input_embedding : Vec}
    {advanced : Bool} {tf : Str → Vec} :
    ∀ {ts : List Str} {L : List (Str × PyFloat)},
      List.Forall₂
        (scoreShape sqrt embed svdTop input_text input_embedding advanced tf)
        ts L →
      L.map Prod.fst = ts := by
  intro ts L h
  induction h with
  | nil => rfl
  | cons h1 _ ih =>
    obtain ⟨ed, _, hp⟩ := h1
    simp [List.map, hp, ih]

/-! Claim theorems. -/

/-- Claim C1: for every corpus candidate and input text, the combined
score computed by `compare` equals `0.7 * semantic_component +
0.3 * edit_similarity` (`scoreShape` spells this formula out), where the
semantic component is the SVD dominant-direction similarity
`advanced_similarity` of the two raw strings in advanced mode and the
TF-IDF cosine similarity `tfidfCosineSim` of the two vectors otherwise. -/
theorem combined_score_formula (sqrt : ℚ → ℚ) (embed : Str → List Vec)
    (svdTop : List Vec → Vec) (c : TextComparer) (input_text : Str)
    (advanced : Bool) (L : List (Str × PyFloat))
    (h : similarityList sqrt embed svdTop c input_text advanced = .ok L) :
    List.Forall₂
      (scoreShape sqrt embed svdTop input_text (c.transform input_text)
        advanced c.transform)
      c.texts L :=
  scoreList_zip_ok sqrt embed svdTop input_text (c.transform input_text)
    advanced c.transform c.texts L h

theorem combined_score_formula_witness :
    List.Forall₂
      (scoreShape sqrt01 embedNone svdStub "abc".toList
        (comparerABC.transform "abc".toList) false comparerABC.transform)
      comparerABC.texts [("abc".toList, PyFloat.num 1)] :=
  combined_score_formula sqrt01 embedNone svdStub comparerABC
    "abc".toList false [("abc".toList, PyFloat.num 1)] rfl

/-- Claim C7: when either text has no embeddable tokens (its
token-embedding matrix has zero rows), `advanced_similarity` returns the
defined fallback value 0.0 — not an error, exception, or NaN. -/
theorem advanced_similarity_empty_fallback (embed : Str → List Vec)
    (svdTop : List Vec → Vec) (sqrt : ℚ → ℚ) (t1 t2 : Str)
    (h : embed t1 = [] ∨ embed t2 = []) :
    advanced_similarity embed svdTop sqrt t1 t2 = PyFloat.num 0 := by
  unfold advanced_similarity
  rcases h with h | h <;> simp [h]

theorem advanced_similarity_empty_fallback_witness :
    advanced_similarity embedNone svdStub sqrt01 "a".toList "b".toList =
      PyFloat.num 0 :=
  advanced_similarity_empty_fallback embedNone svdStub sqrt01
    "a".toList "b".toList (Or.inl rfl)

/-- Claim C10: the standalone semantic similarity is symmetric in its two
text arguments, for every embedder, singular-vector capability and square
root, including on the zero-embeddable-tokens fallback path. -/
theorem advanced_similarity_symm (embed : Str → List Vec)
    (svdTop : List Vec → Vec) (sqrt : ℚ → ℚ) (t1 t2 : Str) :
    advanced_similarity embed svdTop sqrt t1 t2 =
      advanced_similarity embed svdTop sqrt t2 t1 := by
  unfold advanced_similarity
  by_cases h1 : (embed t1).isEmpty <;> by_cases h2 : (embed t2).isEmpty <;>
    simp [h1, h2]
  rw [dot_comm (svdTop (embed t1)) (svdTop (embed t2)), mul_comm]

/-- Claim C2: on a successful comparison the `similar` list is exactly
the candidates of ranks 1..N-1 whose combined score is at least the
`SIMILARITY_THRESHOLD` constant, in descending-score order, and the
rank-0 `closest` entry is excluded by position (the `similar` list is
drawn from the tail of the ranked list, so an exact score tie with rank 1
cannot re-admit it).  The NaN-freeness hypothesis marks the scope within
which the modelled total sort order coincides with Python's float
comparisons; NaN keys make Python's sort order unspecified. -/
theorem similar_list_spec (sqrt : ℚ → ℚ) (embed : Str → List Vec)
    (svdTop : List Vec → Vec) (threshold : ℚ) (c : TextComparer)
    (input_text : Str) (advanced : Bool) (L : List (Str × PyFloat))
    (r : ResultScore) (cAfter : TextComparer)
    (hL : similarityList sqrt embed svdTop c input_text advanced = .ok L)
    (_hNanFree : ∀ p ∈ L, p.2 ≠ PyFloat.nan)
    (hok : compare_texts sqrt embed svdTop threshold c input_text advanced =
      .ok (r, cAfter)) :
    r.similar = (((rankCandidates L).drop 1).filter
        (fun p => pfGe p.2 threshold)).map Prod.fst ∧
    (rankCandidates L).head? = some (r.closest, r.score) ∧
    List.Pairwise scoreDesc
      (((rankCandidates L).drop 1).filter fun p => pfGe p.2 threshold) ∧
    ∀ p ∈ ((rankCandidates L).drop 1).filter fun p => pfGe p.2 threshold,
      pfGe p.2 threshold = true := by
  have hkey : Except.ok (r, cAfter) =
      (match rankCandidates L with
       | [] => (Except.error PyErr.indexError :
           Except PyErr (ResultScore × TextComparer))
       | (closest, score) :: rest =>
         Except.ok (ResultScore.mk closest score
           ((rest.filter (fun p => pfGe p.2 threshold)).map Prod.fst), c)) := by
    rw [← hok]
    unfold compare_texts
    rw [hL]
  cases hR : rankCandidates L with
  | nil =>
    rw [hR] at hkey
    exact Except.noConfusion hkey
  | cons hd tl =>
    obtain ⟨cl, sc⟩ := hd
    rw [hR] at hkey
    have h2 : (Except.ok (r, cAfter) : Except PyErr (ResultScore × TextComparer)) =
        Except.ok (ResultScore.mk cl sc
          ((tl.filter (fun p => pfGe p.2 threshold)).map Prod.fst), c) := hkey
    injection h2 with h3
    have hr : r = ResultScore.mk cl sc
        ((tl.filter (fun p => pfGe p.2 threshold)).map Prod.fst) :=
      congrArg Prod.fst h3
    have hsorted : List.Pairwise scoreDesc (rankCandidates L) :=
      List.sorted_insertionSort scoreDesc L
    rw [hR] at hsorted
    refine ⟨?_, ?_, ?_, ?_⟩
    · rw [hr]
      rfl
    · rw [hr]
      rfl
    · exact hsorted.sublist
        (List.Sublist.trans (List.filter_sublist _) (List.drop_sublist 1 _))
    · intro p hp
      exact (List.mem_filter.mp hp).2

theorem similar_list_spec_witness :
    resultAB2.similar = (((rankCandidates scoresAB2).drop 1).filter
        (fun p => pfGe p.2 (1/10))).map Prod.fst ∧
    (rankCandidates scoresAB2).head? =
      some (resultAB2.closest, resultAB2.score) := by
  have hok : compare_texts sqrt01 embedNone svdStub (1/10) comparerAB2
      "abc".toList false = .ok (resultAB2, comparerAB2) := rfl
  have h := similar_list_spec sqrt01 embedNone svdStub (1/10) comparerAB2
    "abc".toList false scoresAB2 resultAB2 comparerAB2 rfl
    (by decide) hok
  exact ⟨h.1, h.2.1⟩

/-- Claim C3: the ranking sorts the scored candidates descending by
combined score with a stable sort: the score list is in corpus order,
the ranked list is a sorted permutation of it, and within any fixed score
value the original (first-seen) corpus order is preserved.  Same
NaN-freeness proviso as the sorting model. -/
theorem ranking_stable (sqrt : ℚ → ℚ) (embed : Str → List Vec)
    (svdTop : List Vec → Vec) (c : TextComparer) (input_text : Str)
    (advanced : Bool) (L : List (Str × PyFloat))
    (hL : similarityList sqrt embed svdTop c input_text advanced = .ok L)
    (_hNanFree : ∀ p ∈ L, p.2 ≠ PyFloat.nan) :
    L.map Prod.fst = c.texts ∧
    List.Perm (rankCandidates L) L ∧
    List.Pairwise scoreDesc (rankCandidates L) ∧
    ∀ q : ℚ,
      (rankCandidates L).filter (fun p => decide (p.2 = PyFloat.num q)) =
        L.filter (fun p => decide (p.2 = PyFloat.num q)) := by
  refine ⟨?_, ?_, ?_, ?_⟩
  · exact map_fst_of_scoreShape
      (scoreList_zip_ok sqrt embed svdTop input_text (c.transform input_text)
        advanced c.transform c.texts L hL)
  · exact List.perm_insertionSort scoreDesc L
  · exact List.sorted_insertionSort scoreDesc L
  · exact fun q => filter_insertionSort_key q L

theorem ranking_stable_witness :
    List.Perm (rankCandidates scoresAB2R) scoresAB2R ∧
    (rankCandidates scoresAB2R).filter
        (fun p => decide (p.2 = PyFloat.num 1)) =
      scoresAB2R.filter (fun p => decide (p.2 = PyFloat.num 1)) := by
  have h := ranking_stable sqrt01 embedNone svdStub comparerAB2
    "abd".toList false scoresAB2R rfl (by decide)
  exact ⟨h.2.1, h.2.2.2 1⟩

/-- Claim C4 (amended): construction fails with sklearn's
empty-vocabulary `ValueError` exactly when no corpus document yields any
character n-gram — equivalently, when every document's analyzer form is
shorter than 3 characters.  The empty corpus always fails; a non-empty
corpus succeeds only when some document is long enough, so construction
from a non-empty corpus does not always succeed. -/
theorem init_empty_vocabulary (fitTransform : List Str → Str → Vec)
    (texts : List Str) :
    ((∃ cc, TextComparer.init fitTransform texts = .ok cc) ↔
      ∃ t ∈ texts, 3 ≤ (analyzerInput t).length) ∧
    TextComparer.init fitTransform [] = .error .valueError := by
  refine ⟨?_, rfl⟩
  by_cases hall : texts.all (fun t => (charNgrams t).isEmpty)
  · have h1 : TextComparer.init fitTransform texts = .error .valueError := by
      unfold TextComparer.init tfidfFit
      rw [if_pos hall]
    constructor
    · rintro ⟨cc, hcc⟩
      rw [h1] at hcc
      exact Except.noConfusion hcc
    · rintro ⟨t, ht, hlen⟩
      have h2 := List.all_eq_true.mp hall t ht
      have h3 := (charNgrams_isEmpty_iff t).mp h2
      omega
  · have h1 : TextComparer.init fitTransform texts =
        .ok { texts := texts, transform := fitTransform texts } := by
      unfold TextComparer.init tfidfFit
      rw [if_neg hall]
    constructor
    · intro _
      rw [List.all_eq_true] at hall
      push_neg at hall
      obtain ⟨t, ht, hne⟩ := hall
      refine ⟨t, ht, ?_⟩
      by_contra hnot
      exact hne ((charNgrams_isEmpty_iff t).mpr (by omega))
    · intro _
      exact ⟨_, h1⟩

/-- Claim C4 counterexample: the corpus consisting of one empty string is
non-empty, yet construction fails with the empty-vocabulary error,
refuting "construction from any non-empty corpus succeeds". -/
theorem init_nonempty_corpus_fails :
    TextComparer.init (fun _ _ => [0]) ["".toList] = .error .valueError ∧
    (["".toList] : List Str) ≠ [] := ⟨rfl, by decide⟩

/-- Claim C5 (code bug): when the input text shares no n-gram with the
corpus its TF-IDF vector is all-zero, and the lexical similarity
`1 - scipy.cosine(...)` evaluates `0/0`, i.e. NaN — not the 0.0 the spec
mandates.  Concretely, with corpus `["abc"]` and input `"xy"` the zero
input vector makes the lexical similarity and the blended score NaN;
the comparison still completes, with `similar` empty because NaN fails
every threshold comparison. -/
theorem zero_vector_cosine_nan :
    tfidfCosineSim sqrt01 [0] [1] = PyFloat.nan ∧
    ∀ threshold : ℚ,
      compare_texts sqrt01 embedNone svdStub threshold comparerABC
        "xy".toList false =
      .ok (ResultScore.mk "abc".toList PyFloat.nan [], comparerABC) :=
  ⟨rfl, fun _ => rfl⟩

/-- Claim C6 (code bug): edit similarity of any non-empty string with
itself is exactly 1.0, but for two empty strings the code divides by
`max(0, 0) = 0` and raises `ZeroDivisionError` instead of returning the
1.0 the spec mandates; with corpus `["abc", ""]` and input `""` the whole
comparison aborts with that error. -/
theorem edit_similarity_empty_raises :
    (∀ s : Str, s ≠ [] → levSimilarity s s = .ok (PyFloat.num 1)) ∧
    levSimilarity [] [] = .error .zeroDivisionError ∧
    ∀ threshold : ℚ,
      compare_texts sqrt01 embedNone svdStub threshold comparerABCEmpty
        "".toList false = .error .zeroDivisionError := by
  refine ⟨?_, rfl, fun _ => rfl⟩
  intro s hs
  unfold levSimilarity
  rw [levenshtein_self]
  have hmax : ¬ (max s.length s.length = 0) := by
    simp only [Nat.max_self]
    intro h
    exact hs (List.eq_nil_of_length_eq_zero h)
  rw [if_neg hmax]
  norm_num

theorem edit_similarity_empty_raises_witness :
    levSimilarity "a".toList "a".toList = .ok (PyFloat.num 1) :=
  edit_similarity_empty_raises.1 "a".toList (by decide)

/-- Claim C8: `compare` is deterministic — two runs with the same corpus,
input text and advanced flag agree on the closest candidate, its score
and the similar list.  In the embedding `compare_texts` is a pure
function of its arguments, so two successful results coincide
componentwise. -/
theorem compare_deterministic (sqrt : ℚ → ℚ) (embed : Str → List Vec)
    (svdTop : List Vec → Vec) (threshold : ℚ) (c : TextComparer)
    (input_text : Str) (advanced : Bool) (r1 r2 : ResultScore)
    (cA cB : TextComparer)
    (h1 : compare_texts sqrt embed svdTop threshold c input_text advanced =
      .ok (r1, cA))
    (h2 : compare_texts sqrt embed svdTop threshold c input_text advanced =
      .ok (r2, cB)) :
    r1.closest = r2.closest ∧ r1.score = r2.score ∧
      r1.similar = r2.similar := by
  rw [h1] at h2
  injection h2 with h3
  have h4 : r1 = r2 := congrArg Prod.fst h3
  rw [h4]
  exact ⟨rfl, rfl, rfl⟩

theorem compare_deterministic_witness :
    (ResultScore.mk "abc".toList (PyFloat.num 1) []).closest =
      (ResultScore.mk "abc".toList (PyFloat.num 1) []).closest ∧
    (ResultScore.mk "abc".toList (PyFloat.num 1) []).score =
      (ResultScore.mk "abc".toList (PyFloat.num 1) []).score ∧
    (ResultScore.mk "abc".toList (PyFloat.num 1) []).similar =
      (ResultScore.mk "abc".toList (PyFloat.num 1) []).similar := by
  have hrun : compare_texts sqrt01 embedNone svdStub (7/10) comparerABC
      "abc".toList false =
    .ok (ResultScore.mk "abc".toList (PyFloat.num 1) [], comparerABC) := rfl
  exact compare_deterministic sqrt01 embedNone svdStub (7/10) comparerABC
    "abc".toList false _ _ _ _ hrun hrun

/-- Claim C9: a comparison query leaves the comparer's state — the stored
candidate list, the fitted transform (vector space) and the derived
per-candidate vectors — unchanged, so queries are stateless relative to
prior queries. -/
theorem compare_preserves_state (sqrt : ℚ → ℚ) (embed : Str → List Vec)
    (svdTop : List Vec → Vec) (threshold : ℚ) (c : TextComparer)
    (input_text : Str) (advanced : Bool) (r : ResultScore)
    (cAfter : TextComparer)
    (h : compare_texts sqrt embed svdTop threshold c input_text advanced =
      .ok (r, cAfter)) :
    cAfter = c ∧ cAfter.texts = c.texts ∧ cAfter.transform = c.transform ∧
      cAfter.embeddings = c.embeddings := by
  cases hs : similarityList sqrt embed svdTop c input_text advanced with
  | error e =>
    have hkey : (Except.error e : Except PyErr (ResultScore × TextComparer)) =
        .ok (r, cAfter) := by
      rw [← h]
      unfold compare_texts
      rw [hs]
    exact Except.noConfusion hkey
  | ok sims =>
    have hkey : Except.ok (r, cAfter) =
        (match rankCandidates sims with
         | [] => (Except.error PyErr.indexError :
             Except PyErr (ResultScore × TextComparer))
         | (closest, score) :: rest =>
           Except.ok (ResultScore.mk closest score
             ((rest.filter (fun p => pfGe p.2 threshold)).map Prod.fst),
             c)) := by
      rw [← h]
      unfold compare_texts
      rw [hs]
    cases hR : rankCandidates sims with
    | nil =>
      rw [hR] at hkey
      exact Except.noConfusion hkey
    | cons hd tl =>
      obtain ⟨cl, sc⟩ := hd
      rw [hR] at hkey
      have h2 : (Except.ok (r, cAfter) :
          Except PyErr (ResultScore × TextComparer)) =
          Except.ok (ResultScore.mk cl sc
            ((tl.filter (fun p => pfGe p.2 threshold)).map Prod.fst), c) :=
        hkey
      injection h2 with h3
      have hc : cAfter = c := congrArg Prod.snd h3
      exact ⟨hc, by rw [hc], by rw [hc], by rw [hc]⟩

theorem compare_preserves_state_witness :
    comparerABC = comparerABC ∧
    comparerABC.texts = comparerABC.texts ∧
    comparerABC.transform = comparerABC.transform ∧
    comparerABC.embeddings = comparerABC.embeddings := by
  have hrun : compare_texts sqrt01 embedNone svdStub (1/2) comparerABC
      "xy".toList false =
    .ok (ResultScore.mk "abc".toList PyFloat.nan [], comparerABC) := rfl
  exact compare_preserves_state sqrt01 embedNone svdStub (1/2) comparerABC
    "xy".toList false _ _ hrun

end CompareAlg
